import Mathlib

/-!
Shallow embedding of the core of the `glance_store` repository
(`src/glance/store/__init__.py` and `src/glance_store/lichbd.py`) and proofs
about the behaviour of its operations.

Conventions used throughout:

* Python exceptions are modelled as `Except` values over an inductive of error
  kinds; `raise` is `.error`, a normal return is `.ok`.
* Backend calls, plugin loading and spawned shell commands are abstracted into
  oracle parameters (the outcome of the call), so that every embedded function
  stays executable and total.
* Observable side effects (enqueueing into the scrub queue, invoking a cleanup
  command, spawning a process, sleeping) are returned as explicit event lists.
-/

set_option autoImplicit false
set_option linter.unusedVariables false

namespace GlanceStore

/-- Modelled from the spec: the error kinds of §7.  The exception class
declarations themselves (`BackendException`, `UnsupportedBackend`,
`DriverLoadFailure` and the `glance.store.common.exception` module) are
repository code that is not under `src/`; following §7 they are modelled as
one flat inductive of error kinds.  `nameError`, `typeError`,
`attributeError` and `notImplementedError` model the Python built-in
exceptions of the same names. -/
inductive Exc where
  | notFound : Exc
  | storeDeleteNotSupported : Exc
  | storeGetNotSupported : Exc
  | storeAddNotSupported : Exc
  | unsupportedBackend : Exc
  | unknownScheme (scheme : String) : Exc
  | badStoreUri (msg : String) : Exc
  | backendException (msg : String) : Exc
  | badStoreConfiguration (msg : String) : Exc
  | driverLoadFailure (msg : String) : Exc
  | notImplementedError : Exc
  | nameError (name : String) : Exc
  | typeError (msg : String) : Exc
  deriving DecidableEq, Repr

/-- Embedding of `delete_from_backend` (src/glance/store/__init__.py:252-260).
Location parsing and the registry lookup are performed by the caller of the
backend; here the backend's `store.delete(loc)` outcome is the parameter
`backendDelete`.  A backend raising `NotImplementedError` is translated to
`StoreDeleteNotSupported`; everything else passes through. -/
def delete_from_backend (backendDelete : Except Exc Unit) : Except Exc Unit :=
  match backendDelete with
  | .error .notImplementedError => .error .storeDeleteNotSupported
  | r => r

/-- Embedding of `safe_delete_from_backend` (src/glance/store/__init__.py:274-287).
`deleteOutcome` is the outcome of the `delete_from_backend(context, uri)` call
it makes.  `NotFound`, `StoreDeleteNotSupported` and `UnsupportedBackend` are
logged and swallowed (the function returns normally); every other outcome is
returned unchanged.  The `context`, `uri` and `image_id` arguments only feed
the log messages in the source. -/
def safe_delete_from_backend (context uri image_id : String)
    (deleteOutcome : Except Exc Unit) : Except Exc Unit :=
  match deleteOutcome with
  | .error .notFound => .ok ()
  | .error .storeDeleteNotSupported => .ok ()
  | .error .unsupportedBackend => .ok ()
  | r => r

/-- Observable effects of the deletion entry points: an enqueue into the scrub
queue (`file_queue.add_location(image_id, uri)`) or a synchronous
`safe_delete_from_backend(context, uri, image_id)` call. -/
inductive DeleteEffect where
  | enqueue (image_id uri : String) : DeleteEffect
  | safe_delete (uri image_id : String) : DeleteEffect
  deriving DecidableEq, Repr

/-- Modelled from the spec: the scrub-queue collaborator
(`glance.store.scrubber.get_scrub_queues`, used by
`schedule_delayed_delete_from_backend`, src/glance/store/__init__.py:290-299)
is repository code not under `src/`.  Per §6 its `add_location` is a
fire-and-forget `enqueue(objectId, locationUri)`; the embedding records that
single enqueue as an effect. -/
def schedule_delayed_delete_from_backend (context uri image_id : String) :
    List DeleteEffect :=
  [.enqueue image_id uri]

/-- Embedding of `delete_image_from_backend` (src/glance/store/__init__.py:302-306):
if `CONF.delayed_delete` is set it calls
`schedule_delayed_delete_from_backend(context, uri, image_id)`, otherwise it
calls `safe_delete_from_backend(context, uri, image_id)` synchronously.  The
result is the list of observable effects. -/
def delete_image_from_backend (delayed_delete : Bool)
    (context uri image_id : String) : List DeleteEffect :=
  if delayed_delete then schedule_delayed_delete_from_backend context uri image_id
  else [.safe_delete uri image_id]

/-- Number of scrub-queue enqueues among the observed effects. -/
def countEnqueues (evs : List DeleteEffect) : Nat :=
  (evs.filter fun e => match e with | .enqueue _ _ => true | _ => false).length

/-- Number of synchronous `safe_delete_from_backend` calls among the observed
effects. -/
def countSafeDeletes (evs : List DeleteEffect) : Nat :=
  (evs.filter fun e => match e with | .safe_delete _ _ => true | _ => false).length

/-- The `BadStoreUri` message built by `_check_location_uri`
(src/glance/store/__init__.py:392). -/
def invalid_location_msg (uri : String) : String :=
  "Invalid location: " ++ uri

/-- Embedding of `_check_location_uri` (src/glance/store/__init__.py:376-392).
`getSizeOutcome` is the outcome of `store_api.get_size_from_backend(context,
uri)`.  A returned size is valid iff it is `> 0`; `UnknownScheme` and
`NotFound` make the location invalid; an invalid location raises
`BadStoreUri`; any other exception escapes the `try` block and propagates. -/
def check_location_uri (uri : String) (getSizeOutcome : Except Exc Int) :
    Except Exc Unit :=
  match getSizeOutcome with
  | .ok size =>
      if size > 0 then .ok () else .error (.badStoreUri (invalid_location_msg uri))
  | .error (.unknownScheme _) => .error (.badStoreUri (invalid_location_msg uri))
  | .error .notFound => .error (.badStoreUri (invalid_location_msg uri))
  | .error e => .error e

/-- Python values as they occur in location metadata returned by a backend's
`add`.  `ptext` is a Python 2 `unicode` string (the only leaf type the
validator accepts), `pbytes` a Python 2 `str` (raw bytes), and `pnone` is
`None`. -/
inductive PyVal where
  | pnone : PyVal
  | ptext (s : String) : PyVal
  | pbytes (s : String) : PyVal
  | pint (n : Int) : PyVal
  | pdict (entries : List (String × PyVal)) : PyVal
  | plist (elems : List PyVal) : PyVal

/-- The text Python 2 `str(type(v))` produces, with the quote characters
dropped. -/
def pyTypeName : PyVal → String
  | .pnone => "<type NoneType>"
  | .ptext _ => "<type unicode>"
  | .pbytes _ => "<type str>"
  | .pint _ => "<type int>"
  | .pdict _ => "<type dict>"
  | .plist _ => "<type list>"

/-- `isinstance(v, dict)`. -/
def isDict : PyVal → Bool
  | .pdict _ => true
  | _ => false

/-- Python truthiness (`bool(v)`): `None`, `0` and empty containers and
strings are falsy, everything else is truthy. -/
def pyTruthy : PyVal → Bool
  | .pnone => false
  | .ptext s => !(s == "")
  | .pbytes s => !(s == "")
  | .pint n => !(n == 0)
  | .pdict entries => !entries.isEmpty
  | .plist elems => !elems.isEmpty

mutual
/-- A rough rendering of Python `str(v)` for metadata values, used only inside
exception messages. -/
def pyRepr : PyVal → String
  | .pnone => "None"
  | .ptext s => "u" ++ s
  | .pbytes s => s
  | .pint n => toString n
  | .pdict entries => "\x7b" ++ pyReprEntries entries ++ "\x7d"
  | .plist elems => "[" ++ pyReprElems elems ++ "]"

/-- Entries of a dict rendered for `pyRepr`. -/
def pyReprEntries : List (String × PyVal) → String
  | [] => ""
  | [(k, v)] => k ++ ": " ++ pyRepr v
  | (k, v) :: rest => k ++ ": " ++ pyRepr v ++ ", " ++ pyReprEntries rest

/-- Elements of a list rendered for `pyRepr`. -/
def pyReprElems : List PyVal → String
  | [] => ""
  | [v] => pyRepr v
  | v :: rest => pyRepr v ++ ", " ++ pyReprElems rest
end

mutual
/-- Embedding of `check_location_metadata` (src/glance/store/__init__.py:309-321).
A dict recurses into every value with `key` rebound to that entry's key (the
source's loop variable shadows the incoming `key` parameter, so the path is
reset at each dict level, exactly as in the source); a list recurses with
`key` extended to `key[ndx]`; a `unicode` leaf passes; any other value raises
`BackendException` — modelled as an error carrying the offending
`(key path, type name)` pair from which the message is built. -/
def check_location_metadata : PyVal → String → Except (String × String) Unit
  | .pdict entries, _key => checkMetaEntries entries
  | .plist elems, key => checkMetaElems elems key 0
  | .ptext _, _key => .ok ()
  | v, key => .error (key, pyTypeName v)

/-- The dict loop of `check_location_metadata`. -/
def checkMetaEntries : List (String × PyVal) → Except (String × String) Unit
  | [] => .ok ()
  | (k, v) :: rest =>
    match check_location_metadata v k with
    | .ok _ => checkMetaEntries rest
    | .error e => .error e

/-- The list loop of `check_location_metadata`, threading the index `ndx`. -/
def checkMetaElems : List PyVal → String → Nat → Except (String × String) Unit
  | [], _key, _ndx => .ok ()
  | v :: rest, key, ndx =>
    match check_location_metadata v (key ++ "[" ++ toString ndx ++ "]") with
    | .ok _ => checkMetaElems rest key (ndx + 1)
    | .error e => .error e
end

mutual
/-- Every leaf reachable through dicts and lists is a `unicode` string. -/
def allTextLeaves : PyVal → Bool
  | .ptext _ => true
  | .pdict entries => allTextEntries entries
  | .plist elems => allTextElems elems
  | _ => false

/-- `allTextLeaves` over the values of dict entries. -/
def allTextEntries : List (String × PyVal) → Bool
  | [] => true
  | (_, v) :: rest => allTextLeaves v && allTextEntries rest

/-- `allTextLeaves` over list elements. -/
def allTextElems : List PyVal → Bool
  | [] => true
  | v :: rest => allTextLeaves v && allTextElems rest
end

/-- The message of the `BackendException` raised by `store_add_to_backend`
when the metadata is neither `None` nor a dict
(src/glance/store/__init__.py:340-344); the source's format string joins
`"invalid metadata %s"` and `"This must be..."` without a separator. -/
def invalid_metadata_msg (store : String) (metadata : PyVal) : String :=
  "The storage driver " ++ store ++ " returned invalid metadata " ++
    pyRepr metadata ++ "This must be a dictionary type"

/-- Tail of the bad-metadata-structure message, after the offending key
path. -/
def bad_structure_msg_tail (ty : String) : String :=
  " has an invalid type of " ++ ty ++
    ".  Only dict, list, and unicode are supported.."

/-- Head of the bad-metadata-structure message
(src/glance/store/__init__.py:348-351), up to the offending key path: the
outer message embeds the store, the metadata value and the inner
`check_location_metadata` message. -/
def bad_structure_msg_head (store : String) (metadata : PyVal) : String :=
  "A bad metadata structure was returned from the " ++ store ++
    " storage driver: " ++ pyRepr metadata ++ ".  The image metadata key "

/-- The full message of the `BackendException` raised by
`store_add_to_backend` when `check_location_metadata` fails: it names the
offending key path. -/
def bad_structure_msg (store : String) (metadata : PyVal) (key ty : String) :
    String :=
  bad_structure_msg_head store metadata ++ (key ++ bad_structure_msg_tail ty)

/-- Embedding of `store_add_to_backend` (src/glance/store/__init__.py:324-354).
The backend's `store.add(image_id, data, size)` call is abstracted into its
returned tuple `addResult = (location, size, checksum, metadata)`; `store` is
`str(store)` as used in the messages.  If the metadata is not `None` it must
be a dict, and `check_location_metadata` must accept it; any violation raises
`BackendException`; otherwise the tuple is returned unchanged. -/
def store_add_to_backend (image_id store : String)
    (addResult : String × Int × String × PyVal) :
    Except Exc (String × Int × String × PyVal) :=
  match addResult with
  | (location, size, checksum, metadata) =>
    match metadata with
    | .pnone => .ok (location, size, checksum, .pnone)
    | md =>
      if isDict md then
        match check_location_metadata md "" with
        | .ok _ => .ok (location, size, checksum, md)
        | .error (key, ty) =>
            .error (.backendException (bad_structure_msg store md key ty))
      else .error (.backendException (invalid_metadata_msg store md))

/-- A loaded backend instance, reduced to what `create_stores` observes:
`get_schemes()` and `get_store_location_class()`. -/
structure Store where
  schemes : List String
  location_class : String
  deriving DecidableEq, Repr

/-- One registration in the scheme registry: the entry
`{store: store_instance, location_class: loc_cls}` built by `create_stores`
(src/glance/store/__init__.py:178-184). -/
structure SchemeInfo where
  store : Store
  location_class : String
  deriving DecidableEq, Repr

/-- The scheme registry (`location.SCHEME_TO_CLS_MAP`), modelled as an
association list with unique keys, first match wins on lookup. -/
abbrev SchemeMap := List (String × SchemeInfo)

/-- Insert a registration, overwriting any existing registration for the same
scheme (Python dict assignment). -/
def insertScheme (m : SchemeMap) (scheme : String) (info : SchemeInfo) :
    SchemeMap :=
  if m.any (fun p => p.1 == scheme) then
    m.map (fun p => if p.1 == scheme then (scheme, info) else p)
  else m ++ [(scheme, info)]

/-- Modelled from the spec: `location.register_scheme_map` (the
`glance.store.location` module is repository code not under `src/`).  Per
§4.3 every scheme of the given map is registered into the registry,
last-registered wins. -/
def register_scheme_map (m : SchemeMap) (scheme_map : SchemeMap) : SchemeMap :=
  scheme_map.foldl (fun acc p => insertScheme acc p.1 p.2) m

/-- Outcome of `_load_store(conf, store_entry)`
(src/glance/store/__init__.py:141-150) for one configured backend name:
either a loaded instance, a `BadStoreConfiguration` (which `create_stores`
logs and skips), or a `RuntimeError` from the driver manager, which
`_load_store` re-raises as `DriverLoadFailure`. -/
inductive LoadResult where
  | ok (st : Store) : LoadResult
  | badConfig (msg : String) : LoadResult
  | runtimeFailure (msg : String) : LoadResult
  deriving DecidableEq, Repr

/-- Loop of `create_stores` (src/glance/store/__init__.py:155-190) over the
deduplicated configured store entries, threading the registered-store count
and the registry.  A `BadStoreConfiguration` load is skipped; a loaded
backend with an empty scheme set hits
`raise BackendException('...' % store_cls)` — but `store_cls` is an unbound
local name in `create_stores`, so evaluating the message raises `NameError`
before any `BackendException` is constructed; otherwise every scheme of the
backend is registered and the count incremented. -/
def create_stores_go (entries : List (String × LoadResult)) (store_count : Nat)
    (m : SchemeMap) : Except Exc (Nat × SchemeMap) :=
  match entries with
  | [] => .ok (store_count, m)
  | (store_entry, load) :: rest =>
    match load with
    | .badConfig _ => create_stores_go rest store_count m
    | .runtimeFailure msg => .error (.driverLoadFailure msg)
    | .ok store_instance =>
      if store_instance.schemes.isEmpty then .error (.nameError "store_cls")
      else
        let scheme_map := store_instance.schemes.foldl
          (fun sm scheme =>
            insertScheme sm scheme ⟨store_instance, store_instance.location_class⟩)
          []
        create_stores_go rest (store_count + 1) (register_scheme_map m scheme_map)

/-- Embedding of `create_stores` (src/glance/store/__init__.py:155-190).
`entries` is the deduplicated `conf.glance_store.stores` list, each name
paired with its `_load_store` outcome; the registry starts empty (the global
`SCHEME_TO_CLS_MAP` at process start). -/
def create_stores (entries : List (String × LoadResult)) :
    Except Exc (Nat × SchemeMap) :=
  create_stores_go entries 0 []

/-- An entry that lets the `create_stores` loop continue: a load failure that
is skipped, or a loaded backend with a non-empty scheme set. -/
def entryContinues : String × LoadResult → Bool
  | (_, .badConfig _) => true
  | (_, .ok st) => !st.schemes.isEmpty
  | (_, .runtimeFailure _) => false

/-- Embedding of `get_store_from_scheme` (src/glance/store/__init__.py:208-216):
look the scheme up in `location.SCHEME_TO_CLS_MAP` (passed explicitly as
`m`); an absent scheme raises `UnknownScheme`, otherwise the registration's
store is returned. -/
def get_store_from_scheme (m : SchemeMap) (scheme : String) :
    Except Exc Store :=
  match m.find? (fun p => p.1 == scheme) with
  | none => .error (.unknownScheme scheme)
  | some p => .ok p.2.store

/-- Python `s.find(c)` on the character list: index of the first occurrence,
`-1` when absent. -/
def pythonFindAux (c : Char) : List Char → Int
  | [] => -1
  | x :: rest =>
    if x == c then 0
    else
      let r := pythonFindAux c rest
      if r < 0 then -1 else r + 1

/-- Python `uri.find(c)`. -/
def pythonFind (s : String) (c : Char) : Int :=
  pythonFindAux c s.toList

/-- Python `s[0:j]` for an `Int` stop index `j`: a negative `j` counts from
the end (clamped at 0), a `j` beyond the length is clamped to the length. -/
def pySliceUpTo (s : String) (j : Int) : String :=
  (s.toList.take
    (if j < 0 then ((s.toList.length : Int) + j).toNat else j.toNat)).asString

/-- The scheme `get_store_from_uri` extracts:
`uri[0:uri.find('/') - 1]` (src/glance/store/__init__.py:226). -/
def uriScheme (uri : String) : String :=
  pySliceUpTo uri (pythonFind uri '/' - 1)

/-- Embedding of `get_store_from_uri` (src/glance/store/__init__.py:219-227). -/
def get_store_from_uri (m : SchemeMap) (uri : String) : Except Exc Store :=
  get_store_from_scheme m (uriScheme uri)

/-- Follows the spec words for the scheme extraction (§4.4 `backendForUri`):
"extracts the scheme (substring up to the first `/`, minus the trailing
`:`)" — the text before the first `/`, with a trailing `:` removed when
present.  Stated over the source definition `uriScheme` for comparison. -/
def spec_scheme_of_uri (uri : String) : String :=
  if (uri.toList.takeWhile (fun x => !(x == '/'))).getLast? = some ':' then
    (uri.toList.takeWhile (fun x => !(x == '/'))).dropLast.asString
  else (uri.toList.takeWhile (fun x => !(x == '/'))).asString

/-- Declared parameter count of `get_store_from_scheme(scheme)`
(src/glance/store/__init__.py:208): one positional parameter. -/
def get_store_from_scheme_arity : Nat := 1

/-- Embedding of `add_to_backend` (src/glance/store/__init__.py:357-362).
Its first statement is `store = get_store_from_scheme(context, scheme)` — a
call with 2 positional arguments to a function declared with
`get_store_from_scheme_arity = 1` parameters, so Python raises `TypeError`
at the call, before `store_add_to_backend` (and hence the backend's `add`)
can run.  The second component lists the backend operations actually
invoked; the guarded continuation is unreachable. -/
def add_to_backend (m : SchemeMap) (context scheme image_id data : String)
    (size : Int) (addResult : String × Int × String × PyVal) :
    Except Exc (String × Int × String × PyVal) × List String :=
  if h : 2 = get_store_from_scheme_arity then
    absurd h (by decide)
  else
    (.error (.typeError
      "get_store_from_scheme() takes exactly 1 argument (2 given)"), [])

/-- What the operating system reports for one spawned shell command: captured
stdout, stderr and the exit code. -/
structure CmdOut where
  out : String
  err : String
  code : Int
  deriving DecidableEq, Repr

/-- The OS oracle: the outcome of the `t`-th process spawned in a run (a
global spawn counter `t` is threaded through every embedded lichbd function,
one increment per `subprocess.Popen`), for a given command string. -/
abbrev Os := Nat → String → CmdOut

/-- A `ShellCmd` object (src/glance_store/lichbd.py:11-40) after
`communicate()`: the command string and the captured outputs. -/
structure ShellCmd where
  cmd : String
  stdout : String
  stderr : String
  return_code : Int
  deriving DecidableEq, Repr

/-- Build the `ShellCmd` for one spawn of `cmd`. -/
def mkShellCmd (cmd : String) (o : CmdOut) : ShellCmd :=
  ⟨cmd, o.out, o.err, o.code⟩

/-- The `ShellError` message built by `ShellCmd.__call__` and by `raise_exp`
(src/glance_store/lichbd.py:31-38 and 65-71): command, return code, stdout
and stderr, verbatim. -/
def raise_exp_msg (sc : ShellCmd) : String :=
  "failed to execute shell command: " ++ sc.cmd ++
    "\nreturn code: " ++ toString sc.return_code ++
    "\nstdout: " ++ sc.stdout ++
    "\nstderr: " ++ sc.stderr

/-- `ShellCmd.__call__(is_exception)` (src/glance_store/lichbd.py:29-40):
raises `ShellError` (modelled as a `String` error carrying the message) when
`is_exception` is set and the exit code is non-zero; otherwise returns the
completed command. -/
def shellCmdCall (sc : ShellCmd) (is_exception : Bool) :
    Except String ShellCmd :=
  if is_exception && !(sc.return_code == 0) then .error (raise_exp_msg sc)
  else .ok sc

/-- Embedding of `call(cmd)` (src/glance_store/lichbd.py:42-43): one spawn,
raising on non-zero exit (`exception=True` default). -/
def call (os : Os) (cmd : String) (t : Nat) : Except String ShellCmd × Nat :=
  (shellCmdCall (mkShellCmd cmd (os t cmd)) true, t + 1)

/-- Observable events of one `call_try` run: a finished attempt (with its
exit code) and a `time.sleep`. -/
inductive ExecEv where
  | attempt (cmd : String) (rc : Int) : ExecEv
  | sleep (secs : Nat) : ExecEv
  deriving DecidableEq, Repr

/-- The loop of `call_try` (src/glance_store/lichbd.py:51-63), structurally
recursive in the remaining iteration count: each iteration spawns the command
through `__call_shellcmd(cmd, False, workdir)` (never raising), breaks on a
zero exit code, and otherwise sleeps 1 second before the next iteration
(including after the last failed one).  `prev` is the `shellcmd` variable
(initially `None`); the returned value is the last attempt's `ShellCmd`
together with the event trace and the advanced spawn counter. -/
def call_try_go (os : Os) (cmd : String) (prev : Option ShellCmd) (t : Nat) :
    Nat → Except String ((Option ShellCmd × List ExecEv) × Nat)
  | 0 => .ok ((prev, []), t)
  | k + 1 =>
    match shellCmdCall (mkShellCmd cmd (os t cmd)) false with
    | .error e => .error e
    | .ok sc =>
      if sc.return_code = 0 then
        .ok ((some sc, [.attempt cmd sc.return_code]), t + 1)
      else
        match call_try_go os cmd (some sc) (t + 1) k with
        | .error e => .error e
        | .ok ((r, tr), t2) =>
          .ok ((r, .attempt cmd sc.return_code :: .sleep 1 :: tr), t2)

/-- Embedding of `call_try(cmd, exception=False, workdir=None, try_num=None)`
(src/glance_store/lichbd.py:51-63); a `None` `try_num` defaults to 10.  (The
`exception` parameter of the source is accepted and ignored there; it is
omitted here.) -/
def call_try (os : Os) (cmd : String) (try_num : Option Nat) (t : Nat) :
    Except String ((Option ShellCmd × List ExecEv) × Nat) :=
  call_try_go os cmd none t (try_num.getD 10)

/-- Number of attempts in a `call_try` event trace. -/
def countAttempts (tr : List ExecEv) : Nat :=
  (tr.filter fun e => match e with | .attempt _ _ => true | _ => false).length

/-- A trace in which every attempt that is followed by another attempt has a
non-zero exit code and exactly one `sleep 1` between the two. -/
def wellSlept : List ExecEv → Bool
  | [] => true
  | [.attempt _ _] => true
  | .attempt _ rc :: .sleep s :: rest => !(rc == 0) && (s == 1) && wellSlept rest
  | _ => false

/-- Python `s.startswith(":")`: the first character is a colon. -/
def pyStartsWithColon (s : String) : Bool :=
  match s.toList with
  | [] => false
  | c :: _ => c == ':'

/-- Python `s.strip()`: drop leading and trailing whitespace. -/
def pyStrip (s : String) : String :=
  (((s.toList.dropWhile Char.isWhitespace).reverse.dropWhile
    Char.isWhitespace).reverse).asString

/-- Accumulator loop of `pyLong`: consume decimal digits, failing on any
non-digit. -/
def pyLongDigits : List Char → Nat → Option Nat
  | [], acc => some acc
  | c :: rest, acc =>
    if c.isDigit then pyLongDigits rest (acc * 10 + (c.toNat - 48)) else none

/-- Python 2 `long(s)` on a stripped string: an optional sign followed by at
least one decimal digit; anything else raises `ValueError`, modelled as
`none`. -/
def pyLong (s : String) : Option Int :=
  match s.toList with
  | [] => none
  | '-' :: rest =>
    match rest with
    | [] => none
    | _ => (pyLongDigits rest 0).map (fun v => -(v : Int))
  | '+' :: rest =>
    match rest with
    | [] => none
    | _ => (pyLongDigits rest 0).map (fun v => (v : Int))
  | l => (pyLongDigits l 0).map (fun v => (v : Int))

/-- `errno.ENOENT`. -/
def errno_ENOENT : Int := 2

/-- The unlink command line of `lichbd_unlink`
(src/glance_store/lichbd.py:107). -/
def lich_unlink_cmd (path : String) : String :=
  "/opt/mds/lich/libexec/lich --unlink " ++ path

/-- The copy command line of `lichbd_copy` (src/glance_store/lichbd.py:96). -/
def lich_copy_cmd (src_path dst_path : String) : String :=
  "/opt/mds/lich/libexec/lich --copy " ++ src_path ++ " " ++ dst_path

/-- The cleanup command `"rm -rf %s" % dst_path.lstrip(":")` of `lichbd_copy`
(src/glance_store/lichbd.py:101): `lstrip(":")` drops every leading colon. -/
def rm_rf_cmd (dst_path : String) : String :=
  "rm -rf " ++ (dst_path.toList.dropWhile (fun c => c == ':')).asString

/-- Embedding of `lichbd_unlink` (src/glance_store/lichbd.py:107-114):
`call_try` with the default 10 attempts; a final non-zero exit equal to
`ENOENT` is tolerated (idempotent delete), any other non-zero exit raises via
`raise_exp`.  (`call_try` with a positive attempt count never yields `None`;
the `none` branch models the `AttributeError` Python would raise on it.) -/
def lichbd_unlink (os : Os) (path : String) (t : Nat) :
    Except String Unit × Nat :=
  match call_try os (lich_unlink_cmd path) none t with
  | .error e => (.error e, t)
  | .ok ((osc, _tr), t1) =>
    match osc with
    | none =>
      (.error "AttributeError: NoneType object has no attribute return_code", t1)
    | some sc =>
      if sc.return_code = 0 then (.ok (), t1)
      else if sc.return_code = errno_ENOENT then (.ok (), t1)
      else (.error (raise_exp_msg sc), t1)

/-- Observable events of one `lichbd_copy` run: a finished copy attempt (one
whole `call_try`, with the exit code of its last inner attempt) and the two
cleanup forms. -/
inductive CopyEv where
  | copy_attempt (rc : Int) : CopyEv
  | cleanup_rm : CopyEv
  | cleanup_unlink : CopyEv
  deriving DecidableEq, Repr

/-- The loop of `lichbd_copy` (src/glance_store/lichbd.py:93-105),
structurally recursive in the remaining iteration count (5 at the top).  Each
iteration runs `call_try` on the copy command; a zero exit returns; on a
non-zero exit the partial destination is cleaned up — `rm -rf` (through
`call`, raising on failure) when `dst_path` starts with `:`, else
`lichbd_unlink` — and the loop continues.  After the last iteration
`raise_exp(shellcmd)` raises with the last attempt's diagnostics (`prev`
holds that last `ShellCmd`). -/
def lichbd_copy_go (os : Os) (src_path dst_path : String)
    (prev : Option ShellCmd) (t : Nat) :
    Nat → Except String ShellCmd × List CopyEv × Nat
  | 0 =>
    match prev with
    | some sc => (.error (raise_exp_msg sc), [], t)
    | none => (.error "AttributeError: NoneType object has no attribute cmd", [], t)
  | k + 1 =>
    match call_try os (lich_copy_cmd src_path dst_path) none t with
    | .error e => (.error e, [], t)
    | .ok ((osc, _tr), t1) =>
      match osc with
      | none =>
        (.error "AttributeError: NoneType object has no attribute return_code",
          [], t1)
      | some sc =>
        if sc.return_code = 0 then (.ok sc, [.copy_attempt sc.return_code], t1)
        else
          if pyStartsWithColon dst_path then
            match call os (rm_rf_cmd dst_path) t1 with
            | (.error e, t2) =>
              (.error e, [.copy_attempt sc.return_code, .cleanup_rm], t2)
            | (.ok _, t2) =>
              match lichbd_copy_go os src_path dst_path (some sc) t2 k with
              | (r, evs, t3) =>
                (r, .copy_attempt sc.return_code :: .cleanup_rm :: evs, t3)
          else
            match lichbd_unlink os dst_path t1 with
            | (.error e, t2) =>
              (.error e, [.copy_attempt sc.return_code, .cleanup_unlink], t2)
            | (.ok _, t2) =>
              match lichbd_copy_go os src_path dst_path (some sc) t2 k with
              | (r, evs, t3) =>
                (r, .copy_attempt sc.return_code :: .cleanup_unlink :: evs, t3)

/-- Embedding of `lichbd_copy` (src/glance_store/lichbd.py:93-105): at most 5
iterations, `shellcmd` starting as `None`. -/
def lichbd_copy (os : Os) (src_path dst_path : String) (t : Nat) :
    Except String ShellCmd × List CopyEv × Nat :=
  lichbd_copy_go os src_path dst_path none t 5

/-- Number of cleanup invocations (either form) in a `lichbd_copy` trace. -/
def countCleanups (evs : List CopyEv) : Nat :=
  (evs.filter fun e =>
    match e with | .cleanup_rm => true | .cleanup_unlink => true | _ => false).length

/-- Number of copy attempts in a `lichbd_copy` trace. -/
def countCopyAttempts (evs : List CopyEv) : Nat :=
  (evs.filter fun e => match e with | .copy_attempt _ => true | _ => false).length

/-- The stat command line of `lichbd_file_size`
(src/glance_store/lichbd.py:116): the `Size` field is extracted by the shell
pipeline itself. -/
def lich_stat_size_cmd (path : String) : String :=
  "/opt/mds/lich/libexec/lich --stat " ++ path ++
    "|grep Size|awk \x27\x7bprint $2\x7d\x27"

/-- Embedding of `lichbd_file_size` (src/glance_store/lichbd.py:115-121):
`call_try` with the default 10 attempts; a final non-zero exit raises via
`raise_exp`; otherwise `long(shellcmd.stdout.strip())` parses the trimmed
stdout as an integer (a non-numeric string raises `ValueError`, modelled as
an error). -/
def lichbd_file_size (os : Os) (path : String) (t : Nat) :
    Except String Int × Nat :=
  match call_try os (lich_stat_size_cmd path) none t with
  | .error e => (.error e, t)
  | .ok ((osc, _tr), t1) =>
    match osc with
    | none =>
      (.error "AttributeError: NoneType object has no attribute return_code", t1)
    | some sc =>
      if sc.return_code = 0 then
        match pyLong (pyStrip sc.stdout) with
        | some n => (.ok n, t1)
        | none =>
          (.error ("ValueError: invalid literal for long(): " ++
            pyStrip sc.stdout), t1)
      else (.error (raise_exp_msg sc), t1)

/-- The oracle for the C5 witness: the first attempt fails with exit code 1,
every later attempt succeeds. -/
def osRetryDemo : Os := fun t _ => ⟨"", "", if t = 0 then 1 else 0⟩

/-- The cleanup form `lichbd_copy` uses for a destination path: `rm -rf` for
a `:`-prefixed raw path, `lichbd_unlink` otherwise. -/
def cleanupEv (dst_path : String) : CopyEv :=
  if pyStartsWithColon dst_path then .cleanup_rm else .cleanup_unlink

/-- The event list of a `lichbd_copy` run of `k` iterations that all fail
with every cleanup succeeding in one spawn: each iteration contributes one
copy attempt (whose `call_try` burns 10 spawns, the last one at offset
`t + 9`) followed by one cleanup (one spawn), 11 spawns in all. -/
def copyFailEvs (os : Os) (c : String) (ev : CopyEv) : Nat → Nat → List CopyEv
  | 0, _ => []
  | k + 1, t =>
    .copy_attempt ((os (t + 9) c).code) :: ev :: copyFailEvs os c ev k (t + 11)

/-- The `ShellCmd` held in `shellcmd` after `k` further all-failing
iterations of the `lichbd_copy` loop starting at spawn counter `t`, when it
currently holds `s0`. -/
def copyFailLast (os : Os) (c : String) : ShellCmd → Nat → Nat → ShellCmd
  | s0, 0, _ => s0
  | _, k + 1, t => copyFailLast os c (mkShellCmd c (os (t + 9) c)) k (t + 11)

/-- The oracle for the C6 counterexample: every spawn fails with exit code 1
except every 11th one (the cleanup spawns of an all-failing `lichbd_copy`
run), which succeeds. -/
def osCopyDemo : Os := fun t _ => ⟨"", "", if t % 11 = 10 then 0 else 1⟩

/-- The oracle for the C6 witness: the copy command always fails, every
other command (in particular the unlink cleanup) succeeds. -/
def osCopyWitness : Os := fun _ cmd =>
  if cmd = lich_copy_cmd "src-vol" "/dst-vol" then ⟨"", "", 1⟩ else ⟨"", "", 0⟩

/-- The oracle for the C7 counterexample: the first spawn exits 1, every
later spawn succeeds with stdout `123\n`. -/
def osStatDemo : Os := fun t _ =>
  if t = 0 then ⟨"", "", 1⟩ else ⟨"123\n", "", 0⟩

/-- The all-failing oracle for the C7 witness. -/
def osStatFailWitness : Os := fun _ _ => ⟨"garbage", "err", 3⟩

/-- The immediately-succeeding oracle for the C7 witness, reporting a size
of 42 with surrounding whitespace. -/
def osStatOkWitness : Os := fun _ _ => ⟨" 42 \n", "", 0⟩

/-! ## Theorems -/

mutual
/-- `check_location_metadata` succeeds exactly on trees whose leaves are all
`unicode` text, for every incoming key path. -/
theorem check_location_metadata_ok_iff (v : PyVal) (key : String) :
    check_location_metadata v key = .ok () ↔ allTextLeaves v = true := by
  match v with
  | .pnone => simp [check_location_metadata, allTextLeaves]
  | .ptext s => simp [check_location_metadata, allTextLeaves]
  | .pbytes s => simp [check_location_metadata, allTextLeaves]
  | .pint n => simp [check_location_metadata, allTextLeaves]
  | .pdict entries =>
    simp only [check_location_metadata, allTextLeaves]
    exact checkMetaEntries_ok_iff entries
  | .plist elems =>
    simp only [check_location_metadata, allTextLeaves]
    exact checkMetaElems_ok_iff elems key 0

/-- The dict loop succeeds exactly when all entry values validate. -/
theorem checkMetaEntries_ok_iff (l : List (String × PyVal)) :
    checkMetaEntries l = .ok () ↔ allTextEntries l = true := by
  match l with
  | [] => simp [checkMetaEntries, allTextEntries]
  | (k, v) :: rest =>
    simp only [checkMetaEntries, allTextEntries, Bool.and_eq_true]
    cases h : check_location_metadata v k with
    | ok u =>
      cases u
      have hv : allTextLeaves v = true := (check_location_metadata_ok_iff v k).mp h
      simp [hv, checkMetaEntries_ok_iff rest]
    | error e =>
      have hv : ¬ allTextLeaves v = true := by
        intro hall
        rw [(check_location_metadata_ok_iff v k).mpr hall] at h
        cases h
      simp [hv]

/-- The list loop succeeds exactly when all elements validate, for every key
path and starting index. -/
theorem checkMetaElems_ok_iff (l : List PyVal) (key : String) (ndx : Nat) :
    checkMetaElems l key ndx = .ok () ↔ allTextElems l = true := by
  match l with
  | [] => simp [checkMetaElems, allTextElems]
  | v :: rest =>
    simp only [checkMetaElems, allTextElems, Bool.and_eq_true]
    cases h : check_location_metadata v (key ++ "[" ++ toString ndx ++ "]") with
    | ok u =>
      cases u
      have hv : allTextLeaves v = true :=
        (check_location_metadata_ok_iff v (key ++ "[" ++ toString ndx ++ "]")).mp h
      simp [hv, checkMetaElems_ok_iff rest key (ndx + 1)]
    | error e =>
      have hv : ¬ allTextLeaves v = true := by
        intro hall
        rw [(check_location_metadata_ok_iff v
          (key ++ "[" ++ toString ndx ++ "]")).mpr hall] at h
        cases h
      simp [hv]
end

/-- C2: `store_add_to_backend` validates the metadata returned by the
backend's `add`: a truthy (non-empty) metadata value that is not a dict
raises `BackendException`; a dict with any non-`unicode` leaf (at any
nesting depth) raises `BackendException` whose message embeds the offending
key path as reported by `check_location_metadata` — for a non-text leaf at
index 3 of a list stored under key `key`, the reported path is `key[3]`
— and a dict all of whose leaves are `unicode` text passes, the
`(location, size, checksum, metadata)` tuple being returned unchanged. -/
theorem store_add_to_backend_metadata_validation
    (image_id store location checksum : String) (size : Int) (md : PyVal) :
    (pyTruthy md = true → isDict md = false →
      store_add_to_backend image_id store (location, size, checksum, md)
        = .error (.backendException (invalid_metadata_msg store md)))
    ∧ (isDict md = true → allTextLeaves md = false →
      ∃ key ty, check_location_metadata md "" = .error (key, ty)
        ∧ store_add_to_backend image_id store (location, size, checksum, md)
            = .error (.backendException (bad_structure_msg store md key ty))
        ∧ ∃ head tail, bad_structure_msg store md key ty = head ++ (key ++ tail))
    ∧ (isDict md = true → allTextLeaves md = true →
      store_add_to_backend image_id store (location, size, checksum, md)
        = .ok (location, size, checksum, md))
    ∧ store_add_to_backend image_id store (location, size, checksum,
        .pdict [("key", .plist [.ptext "a", .ptext "b", .ptext "c", .pint 7])])
      = .error (.backendException (bad_structure_msg store
          (.pdict [("key", .plist [.ptext "a", .ptext "b", .ptext "c", .pint 7])])
          "key[3]" "<type int>")) := by
  refine ⟨?_, ?_, ?_, ?_⟩
  · intro htruthy hdict
    cases md with
    | pnone => simp [pyTruthy] at htruthy
    | pdict entries => simp [isDict] at hdict
    | ptext s => simp [store_add_to_backend, isDict]
    | pbytes s => simp [store_add_to_backend, isDict]
    | pint n => simp [store_add_to_backend, isDict]
    | plist elems => simp [store_add_to_backend, isDict]
  · intro hdict hbad
    cases md with
    | pdict entries =>
      cases h : check_location_metadata (.pdict entries) "" with
      | ok u =>
        cases u
        have := (check_location_metadata_ok_iff (.pdict entries) "").mp h
        rw [this] at hbad
        cases hbad
      | error e =>
        obtain ⟨key, ty⟩ := e
        refine ⟨key, ty, rfl, ?_, ?_⟩
        · simp [store_add_to_backend, isDict, h]
        · exact ⟨bad_structure_msg_head store (.pdict entries),
            bad_structure_msg_tail ty, rfl⟩
    | pnone => simp [isDict] at hdict
    | ptext s => simp [isDict] at hdict
    | pbytes s => simp [isDict] at hdict
    | pint n => simp [isDict] at hdict
    | plist elems => simp [isDict] at hdict
  · intro hdict hall
    cases md with
    | pdict entries =>
      have h := (check_location_metadata_ok_iff (.pdict entries) "").mpr hall
      simp [store_add_to_backend, isDict, h]
    | pnone => simp [isDict] at hdict
    | ptext s => simp [isDict] at hdict
    | pbytes s => simp [isDict] at hdict
    | pint n => simp [isDict] at hdict
    | plist elems => simp [isDict] at hdict
  · simp [store_add_to_backend, isDict, check_location_metadata,
      checkMetaEntries, checkMetaElems, pyTypeName]
    rfl

/-- Instantiation of the C2 theorem: an integer metadata value, a dict with a
byte-string leaf two levels deep, and an all-unicode dict, all at concrete
inputs. -/
theorem store_add_to_backend_metadata_validation_witness :
    (pyTruthy (PyVal.pint 5) = true ∧ isDict (PyVal.pint 5) = false
      ∧ store_add_to_backend "img" "FakeStore" ("loc", 3, "ck", .pint 5)
          = .error (.backendException (invalid_metadata_msg "FakeStore" (.pint 5))))
    ∧ (∃ key ty,
        check_location_metadata (.pdict [("a", .plist [.pbytes "raw"])]) ""
          = .error (key, ty)
        ∧ store_add_to_backend "img" "FakeStore"
            ("loc", 3, "ck", .pdict [("a", .plist [.pbytes "raw"])])
          = .error (.backendException (bad_structure_msg "FakeStore"
              (.pdict [("a", .plist [.pbytes "raw"])]) key ty))
        ∧ ∃ head tail, bad_structure_msg "FakeStore"
            (.pdict [("a", .plist [.pbytes "raw"])]) key ty = head ++ (key ++ tail))
    ∧ store_add_to_backend "img" "FakeStore"
        ("loc", 3, "ck", .pdict [("u", .ptext "v")])
      = .ok ("loc", 3, "ck", .pdict [("u", .ptext "v")]) := by
  refine ⟨⟨rfl, rfl, ?_⟩, ?_, ?_⟩
  · exact (store_add_to_backend_metadata_validation
      "img" "FakeStore" "loc" "ck" 3 (.pint 5)).1 rfl rfl
  · exact (store_add_to_backend_metadata_validation
      "img" "FakeStore" "loc" "ck" 3 (.pdict [("a", .plist [.pbytes "raw"])])).2.1
      rfl (by simp [allTextLeaves, allTextEntries, allTextElems])
  · exact (store_add_to_backend_metadata_validation
      "img" "FakeStore" "loc" "ck" 3 (.pdict [("u", .ptext "v")])).2.2.1
      rfl (by simp [allTextLeaves, allTextEntries, allTextElems])

/-- C3: `safe_delete_from_backend` swallows exactly `NotFound`,
`StoreDeleteNotSupported` and `UnsupportedBackend` raised by its
`delete_from_backend` call (returning normally), and returns every other
outcome of the delete unchanged. -/
theorem safe_delete_swallow_policy (context uri image_id : String) (e : Exc) :
    safe_delete_from_backend context uri image_id (.error .notFound) = .ok ()
    ∧ safe_delete_from_backend context uri image_id
        (.error .storeDeleteNotSupported) = .ok ()
    ∧ safe_delete_from_backend context uri image_id
        (.error .unsupportedBackend) = .ok ()
    ∧ safe_delete_from_backend context uri image_id (.ok ()) = .ok ()
    ∧ (e ≠ .notFound → e ≠ .storeDeleteNotSupported → e ≠ .unsupportedBackend →
        safe_delete_from_backend context uri image_id (.error e) = .error e) := by
  refine ⟨rfl, rfl, rfl, rfl, ?_⟩
  intro h1 h2 h3
  cases e with
  | notFound => exact absurd rfl h1
  | storeDeleteNotSupported => exact absurd rfl h2
  | unsupportedBackend => exact absurd rfl h3
  | _ => rfl

/-- Instantiation of the C3 theorem: a raw backend failure (modelled as a
`BackendException`) propagates through `safe_delete_from_backend`
unchanged. -/
theorem safe_delete_swallow_policy_witness :
    safe_delete_from_backend "ctx" "file:///img" "img-1"
      (.error (.backendException "disk on fire")) =
      .error (.backendException "disk on fire") :=
  (safe_delete_swallow_policy "ctx" "file:///img" "img-1"
    (.backendException "disk on fire")).2.2.2.2
    (by decide) (by decide) (by decide)

/-- C4: with the delayed-delete flag set, `delete_image_from_backend`
enqueues exactly one `(image_id, uri)` entry into the scrub queue and makes
no synchronous `safe_delete_from_backend` call; with the flag unset it makes
exactly one synchronous `safe_delete_from_backend` call and enqueues
nothing. -/
theorem delete_image_from_backend_branching (context uri image_id : String) :
    delete_image_from_backend true context uri image_id
      = [.enqueue image_id uri]
    ∧ countEnqueues (delete_image_from_backend true context uri image_id) = 1
    ∧ countSafeDeletes (delete_image_from_backend true context uri image_id) = 0
    ∧ delete_image_from_backend false context uri image_id
      = [.safe_delete uri image_id]
    ∧ countSafeDeletes (delete_image_from_backend false context uri image_id) = 1
    ∧ countEnqueues (delete_image_from_backend false context uri image_id) = 0 :=
  ⟨rfl, rfl, rfl, rfl, rfl, rfl⟩

/-- C8: `_check_location_uri` raises `BadStoreUri` exactly when the reported
size is `≤ 0` or the `get_size_from_backend` call raises `UnknownScheme` or
`NotFound` (the original exception being replaced, not propagated); a size
`> 0` returns normally, and any other exception from the size call
propagates unchanged. -/
theorem check_location_uri_policy (uri : String) (size : Int) (s : String)
    (e : Exc) :
    (0 < size → check_location_uri uri (.ok size) = .ok ())
    ∧ (size ≤ 0 → check_location_uri uri (.ok size)
        = .error (.badStoreUri (invalid_location_msg uri)))
    ∧ check_location_uri uri (.error (.unknownScheme s))
        = .error (.badStoreUri (invalid_location_msg uri))
    ∧ check_location_uri uri (.error .notFound)
        = .error (.badStoreUri (invalid_location_msg uri))
    ∧ ((∀ s2, e ≠ .unknownScheme s2) → e ≠ .notFound →
        check_location_uri uri (.error e) = .error e) := by
  refine ⟨?_, ?_, rfl, rfl, ?_⟩
  · intro h
    simp [check_location_uri, h]
  · intro h
    simp [check_location_uri, not_lt.mpr h]
  · intro h1 h2
    cases e with
    | unknownScheme s2 => exact absurd rfl (h1 s2)
    | notFound => exact absurd rfl h2
    | _ => rfl

/-- Instantiation of the C8 theorem: a reported size of 0 and an
`UnknownScheme` both become `BadStoreUri`; a backend internal failure
propagates; a positive size passes. -/
theorem check_location_uri_policy_witness :
    check_location_uri "swift://img" (.ok 0)
      = .error (.badStoreUri (invalid_location_msg "swift://img"))
    ∧ check_location_uri "swift://img" (.error (.unknownScheme "swift"))
      = .error (.badStoreUri (invalid_location_msg "swift://img"))
    ∧ check_location_uri "swift://img" (.error (.backendException "boom"))
      = .error (.backendException "boom")
    ∧ check_location_uri "swift://img" (.ok 7) = .ok () := by
  refine ⟨?_, ?_, ?_, ?_⟩
  · exact (check_location_uri_policy "swift://img" 0 "swift"
      (.backendException "boom")).2.1 (by decide)
  · exact (check_location_uri_policy "swift://img" 0 "swift"
      (.backendException "boom")).2.2.1
  · exact (check_location_uri_policy "swift://img" 0 "swift"
      (.backendException "boom")).2.2.2.2
      (fun s2 h => Exc.noConfusion h) (fun h => Exc.noConfusion h)
  · exact (check_location_uri_policy "swift://img" 7 "swift"
      (.backendException "boom")).1 (by decide)

/-- C10: every call to `add_to_backend` passes two arguments to the
one-parameter `get_store_from_scheme`, so it fails with a `TypeError`
before any backend operation is invoked (the invoked-operations list is
empty), for every registry, context, scheme and payload. -/
theorem add_to_backend_arity_type_error (m : SchemeMap)
    (context scheme image_id data : String) (size : Int)
    (addResult : String × Int × String × PyVal) :
    add_to_backend m context scheme image_id data size addResult
      = (.error (.typeError
          "get_store_from_scheme() takes exactly 1 argument (2 given)"), [])
    ∧ (add_to_backend m context scheme image_id data size addResult).2 = []
    ∧ get_store_from_scheme_arity = 1 :=
  ⟨rfl, rfl, rfl⟩

/-- The `create_stores` loop reaches a loaded backend with an empty scheme
set whenever every earlier entry is either skipped or registered, and then
stops with the `NameError`, whatever the count and registry so far. -/
theorem create_stores_go_reaches_empty (name : String) (st : Store)
    (rest : List (String × LoadResult)) (hempty : st.schemes = []) :
    ∀ (pre : List (String × LoadResult)), (∀ e ∈ pre, entryContinues e = true) →
      ∀ (store_count : Nat) (m : SchemeMap),
        create_stores_go (pre ++ (name, .ok st) :: rest) store_count m
          = .error (.nameError "store_cls")
  | [], _, store_count, m => by
    simp [create_stores_go, hempty]
  | (n, load) :: pre, hpre, store_count, m => by
    have hhd : entryContinues (n, load) = true := hpre _ (by simp)
    have htl : ∀ e ∈ pre, entryContinues e = true :=
      fun e he => hpre e (by simp [he])
    cases load with
    | badConfig msg =>
      simpa [create_stores_go] using
        create_stores_go_reaches_empty name st rest hempty pre htl store_count m
    | runtimeFailure msg => simp [entryContinues] at hhd
    | ok st2 =>
      have hne : st2.schemes.isEmpty = false := by
        simp [entryContinues] at hhd
        simpa using hhd
      simpa [create_stores_go, hne] using
        create_stores_go_reaches_empty name st rest hempty pre htl
          (store_count + 1)
          (register_scheme_map m (st2.schemes.foldl
            (fun sm scheme => insertScheme sm scheme ⟨st2, st2.location_class⟩) []))

/-- C1 (code bug): when a loaded backend reports an empty scheme set,
`create_stores` does fail regardless of how many earlier backends were
skipped or registered — but with a `NameError` (the `store_cls` name in the
raise statement is unbound), not with the `BackendException` the raise
statement intends to construct. -/
theorem create_stores_empty_schemes_name_error
    (pre rest : List (String × LoadResult)) (name : String) (st : Store)
    (hpre : ∀ e ∈ pre, entryContinues e = true) (hempty : st.schemes = []) :
    create_stores (pre ++ (name, .ok st) :: rest)
      = .error (.nameError "store_cls")
    ∧ ∀ msg, create_stores (pre ++ (name, .ok st) :: rest)
        ≠ .error (.backendException msg) := by
  have h := create_stores_go_reaches_empty name st rest hempty pre hpre 0 []
  refine ⟨h, fun msg hc => ?_⟩
  rw [create_stores] at hc
  rw [h] at hc
  cases hc

/-- Instantiation of the C1 theorem: a configuration with one skipped store,
one successfully registered store and one schemeless store fails with the
`NameError`. -/
theorem create_stores_empty_schemes_name_error_witness :
    create_stores [("skipped", .badConfig "bad config"),
        ("good", .ok ⟨["file"], "FileLoc"⟩),
        ("schemeless", .ok ⟨[], "NoLoc"⟩)]
      = .error (.nameError "store_cls") :=
  (create_stores_empty_schemes_name_error
    [("skipped", .badConfig "bad config"), ("good", .ok ⟨["file"], "FileLoc"⟩)]
    [] "schemeless" ⟨[], "NoLoc"⟩ (by decide) rfl).1

/-- `uri.find(c)` locates the first occurrence: it equals the length of the
prefix of characters different from `c`, whenever `c` occurs. -/
theorem pythonFindAux_eq_takeWhile_length (c : Char) :
    ∀ (l : List Char), c ∈ l →
      pythonFindAux c l = ((l.takeWhile (fun x => !(x == c))).length : Int)
  | [], h => absurd h (List.not_mem_nil c)
  | x :: rest, h => by
    by_cases hx : x == c
    · simp [pythonFindAux, hx]
    · have hc : c ∈ rest := by
        cases List.mem_cons.mp h with
        | inl he => exact absurd (beq_iff_eq.mpr he.symm) hx
        | inr ht => exact ht
      have ih := pythonFindAux_eq_takeWhile_length c rest hc
      have hnonneg : ¬ pythonFindAux c rest < 0 := by
        rw [ih]
        omega
      simp [pythonFindAux, hx, hnonneg, ih, List.takeWhile_cons]

/-- A small registry used to exhibit the C9 counterexample. -/
def demoRegistry : SchemeMap := [("a", ⟨⟨["a"], "ALoc"⟩, "ALoc"⟩)]

/-- C9 counterexample: on the uri `a/b` the text before the first `/` is
`a`, which carries no trailing `:`, so the claimed extraction rule yields
`a` — a registered scheme — while the code's `uri[0:uri.find('/') - 1]`
yields the empty string, so `get_store_from_uri` raises
`UnknownScheme("")` where the claim demands a successful lookup. -/
theorem get_store_from_uri_spec_extraction_false :
    uriScheme "a/b" = ""
    ∧ spec_scheme_of_uri "a/b" = "a"
    ∧ get_store_from_uri demoRegistry "a/b" = .error (.unknownScheme "")
    ∧ get_store_from_scheme demoRegistry (spec_scheme_of_uri "a/b")
        = .ok ⟨["a"], "ALoc"⟩ := by
  refine ⟨by decide, by decide, rfl, rfl⟩

/-- C9 (amended): `get_store_from_uri` extracts
`uri[0:uri.find('/') - 1]` — the characters strictly before the position one
to the left of the first `/` — and looks that scheme up.  Whenever the uri
contains a `/` and the text before the first `/` ends with `:`, this
coincides with the spec's "substring up to the first `/` minus the trailing
`:`"; and `get_store_from_scheme` fails with `UnknownScheme` exactly on
schemes absent from the registry. -/
theorem get_store_from_uri_scheme_extraction (uri : String) (m : SchemeMap) :
    get_store_from_uri m uri = get_store_from_scheme m (uriScheme uri)
    ∧ ('/' ∈ uri.toList →
        (uri.toList.takeWhile (fun x => !(x == '/'))).getLast? = some ':' →
        uriScheme uri = spec_scheme_of_uri uri)
    ∧ (∀ scheme, m.find? (fun p => p.1 == scheme) = none →
        get_store_from_scheme m scheme = .error (.unknownScheme scheme))
    ∧ (∀ scheme info, m.find? (fun p => p.1 == scheme) = some info →
        get_store_from_scheme m scheme = .ok info.2.store) := by
  refine ⟨rfl, ?_, ?_, ?_⟩
  · intro hmem hlast
    have key : ∀ (L : List Char) (n : Nat),
        n ≤ (L.takeWhile (fun x => !(x == '/'))).length →
        L.take n = (L.takeWhile (fun x => !(x == '/'))).take n := by
      intro L n hn
      conv_lhs =>
        rw [← List.takeWhile_append_dropWhile (fun x => !(x == '/')) L]
      rw [List.take_append_eq_append_take, Nat.sub_eq_zero_of_le hn,
        List.take_zero, List.append_nil]
    have hfind := pythonFindAux_eq_takeWhile_length '/' uri.toList hmem
    have hne : (uri.toList.takeWhile (fun x => !(x == '/'))) ≠ [] := by
      intro he
      rw [he] at hlast
      cases hlast
    have hlen : 0 < (uri.toList.takeWhile (fun x => !(x == '/'))).length :=
      List.length_pos.mpr hne
    have hstop : (pythonFind uri '/' - 1).toNat
        = (uri.toList.takeWhile (fun x => !(x == '/'))).length - 1 := by
      rw [pythonFind, hfind]
      omega
    have hnotneg : ¬ pythonFind uri '/' - 1 < 0 := by
      rw [pythonFind, hfind]
      omega
    rw [uriScheme, pySliceUpTo, if_neg hnotneg, hstop, spec_scheme_of_uri,
      if_pos hlast, List.dropLast_eq_take,
      key uri.toList _ (Nat.sub_le _ _)]
  · intro scheme h
    simp [get_store_from_scheme, h]
  · intro scheme info h
    simp [get_store_from_scheme, h]

/-- Instantiation of the C9 amended theorem: on `file:///img` the code's
extraction agrees with the spec's description, and a lookup in the empty
registry fails with `UnknownScheme`. -/
theorem get_store_from_uri_scheme_extraction_witness :
    uriScheme "file:///img" = spec_scheme_of_uri "file:///img"
    ∧ get_store_from_scheme ([] : SchemeMap) "file"
        = .error (.unknownScheme "file") := by
  refine ⟨?_, ?_⟩
  · exact (get_store_from_uri_scheme_extraction "file:///img" []).2.1
      (by decide) (by decide)
  · exact (get_store_from_uri_scheme_extraction "file:///img" []).2.2.1
      "file" rfl

/-- An `attempt` event adds one to the attempt count. -/
theorem countAttempts_cons_attempt (c : String) (rc : Int) (tr : List ExecEv) :
    countAttempts (.attempt c rc :: tr) = countAttempts tr + 1 := by
  simp [countAttempts]

/-- A `sleep` event does not change the attempt count. -/
theorem countAttempts_cons_sleep (s : Nat) (tr : List ExecEv) :
    countAttempts (.sleep s :: tr) = countAttempts tr := by
  simp [countAttempts]

/-- One unfolding of the `call_try` loop: the spawn itself never raises
(`__call_shellcmd` passes `False`), the loop breaks on a zero exit code and
otherwise sleeps and continues. -/
theorem call_try_go_succ (os : Os) (cmd : String) (prev : Option ShellCmd)
    (t k : Nat) :
    call_try_go os cmd prev t (k + 1)
      = if (os t cmd).code = 0 then
          .ok ((some (mkShellCmd cmd (os t cmd)),
            [.attempt cmd (os t cmd).code]), t + 1)
        else
          match call_try_go os cmd (some (mkShellCmd cmd (os t cmd))) (t + 1) k with
          | .error e => .error e
          | .ok ((r, tr), t2) =>
            .ok ((r, .attempt cmd (os t cmd).code :: .sleep 1 :: tr), t2) := rfl

/-- Full characterisation of one `call_try` loop run of `k ≥ 1` iterations
starting at spawn counter `t`: it returns normally; it makes between 1 and
`k` attempts (one spawn each, the counter advancing accordingly); the
returned `ShellCmd` is the last attempt's; every attempt before the last
exited non-zero; the run uses all `k` iterations whenever the last attempt
exited non-zero; and consecutive attempts are separated by exactly one
`sleep 1`. -/
theorem call_try_go_spec (os : Os) (cmd : String) :
    ∀ (k : Nat), 1 ≤ k → ∀ (t : Nat) (prev : Option ShellCmd),
      ∃ sc tr,
        call_try_go os cmd prev t k = .ok ((some sc, tr), t + countAttempts tr)
        ∧ 1 ≤ countAttempts tr
        ∧ countAttempts tr ≤ k
        ∧ sc = mkShellCmd cmd (os (t + countAttempts tr - 1) cmd)
        ∧ (∀ j, j + 1 < countAttempts tr → ¬ (os (t + j) cmd).code = 0)
        ∧ (¬ (os (t + countAttempts tr - 1) cmd).code = 0 → countAttempts tr = k)
        ∧ wellSlept tr = true := by
  intro k
  induction k with
  | zero => intro h; exact absurd h (by decide)
  | succ k ih =>
    intro _ t prev
    by_cases hc : (os t cmd).code = 0
    · refine ⟨mkShellCmd cmd (os t cmd), [.attempt cmd (os t cmd).code],
        ?_, ?_, ?_, ?_, ?_, ?_, ?_⟩
      · rw [call_try_go_succ, if_pos hc]
        rfl
      · simp [countAttempts]
      · simp [countAttempts]
      · simp [countAttempts]
      · intro j hj
        simp [countAttempts] at hj
      · intro hfail
        simp [countAttempts, mkShellCmd] at hfail ⊢
        exact absurd hc hfail
      · rfl
    · rcases Nat.eq_zero_or_pos k with hk | hk
      · subst hk
        refine ⟨mkShellCmd cmd (os t cmd),
          [.attempt cmd (os t cmd).code, .sleep 1], ?_, ?_, ?_, ?_, ?_, ?_, ?_⟩
        · rw [call_try_go_succ, if_neg hc]
          rfl
        · simp [countAttempts]
        · simp [countAttempts]
        · simp [countAttempts]
        · intro j hj
          simp [countAttempts] at hj
        · intro _
          simp [countAttempts]
        · simp [wellSlept, hc]
      · obtain ⟨sc, tr, heq, hone, hle, hsc, hbefore, hfull, hws⟩ :=
          ih (by omega) (t + 1) (some (mkShellCmd cmd (os t cmd)))
        refine ⟨sc, .attempt cmd (os t cmd).code :: .sleep 1 :: tr,
          ?_, ?_, ?_, ?_, ?_, ?_, ?_⟩
        · rw [call_try_go_succ, if_neg hc, heq,
            countAttempts_cons_attempt, countAttempts_cons_sleep,
            (by omega : t + (countAttempts tr + 1) = t + 1 + countAttempts tr)]
        · rw [countAttempts_cons_attempt, countAttempts_cons_sleep]
          omega
        · rw [countAttempts_cons_attempt, countAttempts_cons_sleep]
          omega
        · rw [countAttempts_cons_attempt, countAttempts_cons_sleep, hsc,
            (by omega : t + (countAttempts tr + 1) - 1 = t + 1 + countAttempts tr - 1)]
        · intro j hj
          rw [countAttempts_cons_attempt, countAttempts_cons_sleep] at hj
          cases j with
          | zero => exact hc
          | succ j2 =>
            have := hbefore j2 (by omega)
            rw [(by omega : t + (j2 + 1) = t + 1 + j2)]
            exact this
        · intro hfail
          rw [countAttempts_cons_attempt, countAttempts_cons_sleep] at hfail ⊢
          rw [(by omega : t + (countAttempts tr + 1) - 1 = t + 1 + countAttempts tr - 1)]
            at hfail
          have := hfull hfail
          omega
        · simp [wellSlept, hc, hws]

/-- C5: for every command and every `try_num = n ≥ 1`, `call_try` returns
normally (it never raises on failure: the inner `ShellCmd` call passes
`is_exception=False`); it makes at most `n` attempts; the first attempt with
a zero exit code is the last one made; it uses all `n` attempts only when
the final attempt still exits non-zero; the returned `ShellCmd` is the last
attempt's result regardless of success; and every two consecutive attempts
are separated by exactly one `sleep 1` after the non-zero exit. -/
theorem call_try_retry_policy (os : Os) (cmd : String) (n : Nat) (h : 1 ≤ n) :
    ∃ sc tr,
      call_try os cmd (some n) 0 = .ok ((some sc, tr), countAttempts tr)
      ∧ 1 ≤ countAttempts tr
      ∧ countAttempts tr ≤ n
      ∧ sc = mkShellCmd cmd (os (countAttempts tr - 1) cmd)
      ∧ (∀ j, j + 1 < countAttempts tr → ¬ (os j cmd).code = 0)
      ∧ (¬ (os (countAttempts tr - 1) cmd).code = 0 → countAttempts tr = n)
      ∧ wellSlept tr = true := by
  obtain ⟨sc, tr, heq, hone, hle, hsc, hbefore, hfull, hws⟩ :=
    call_try_go_spec os cmd n h 0 none
  refine ⟨sc, tr, ?_, hone, hle, ?_, ?_, ?_, hws⟩
  · rw [call_try]
    simpa using heq
  · simpa using hsc
  · intro j hj
    have := hbefore j hj
    simpa using this
  · intro hfail
    exact hfull (by simpa using hfail)

/-- Instantiation of the C5 theorem at `osRetryDemo` with `try_num = 3`. -/
theorem call_try_retry_policy_witness :
    (1 : Nat) ≤ 3
    ∧ ∃ sc tr,
      call_try osRetryDemo "lich --stat /img" (some 3) 0
        = .ok ((some sc, tr), countAttempts tr)
      ∧ 1 ≤ countAttempts tr
      ∧ countAttempts tr ≤ 3
      ∧ sc = mkShellCmd "lich --stat /img"
          (osRetryDemo (countAttempts tr - 1) "lich --stat /img")
      ∧ (∀ j, j + 1 < countAttempts tr →
          ¬ (osRetryDemo j "lich --stat /img").code = 0)
      ∧ (¬ (osRetryDemo (countAttempts tr - 1) "lich --stat /img").code = 0 →
          countAttempts tr = 3)
      ∧ wellSlept tr = true :=
  ⟨by decide, call_try_retry_policy osRetryDemo "lich --stat /img" 3 (by decide)⟩

/-- Field reduction for `mkShellCmd`: the exit code. -/
theorem mkShellCmd_return_code (cmd : String) (o : CmdOut) :
    (mkShellCmd cmd o).return_code = o.code := rfl

/-- Field reduction for `mkShellCmd`: the captured stdout. -/
theorem mkShellCmd_stdout (cmd : String) (o : CmdOut) :
    (mkShellCmd cmd o).stdout = o.out := rfl

/-- A `call_try` run (default 10 attempts) under an oracle on which the
command always fails returns the 10th attempt's `ShellCmd` after 10 spawns,
normally (no raise). -/
theorem call_try_all_fail (os : Os) (cmd : String) (t : Nat)
    (h : ∀ u, ¬ (os u cmd).code = 0) :
    ∃ tr, call_try os cmd none t
      = .ok ((some (mkShellCmd cmd (os (t + 9) cmd)), tr), t + 10) := by
  obtain ⟨sc, tr, heq, hone, hle, hsc, hbefore, hfull, hws⟩ :=
    call_try_go_spec os cmd 10 (by decide) t none
  have hcnt : countAttempts tr = 10 := hfull (h _)
  rw [hcnt] at heq hsc
  rw [(by omega : t + 10 - 1 = t + 9)] at hsc
  rw [hsc] at heq
  exact ⟨tr, heq⟩

/-- A `call_try` run whose first attempt exits zero stops after that one
attempt and spawn. -/
theorem call_try_first_ok (os : Os) (cmd : String) (t : Nat)
    (h : (os t cmd).code = 0) :
    call_try os cmd none t
      = .ok ((some (mkShellCmd cmd (os t cmd)),
          [.attempt cmd (os t cmd).code]), t + 1) := by
  show call_try_go os cmd none t 10 = _
  rw [show (10 : Nat) = 9 + 1 from rfl, call_try_go_succ, if_pos h]

/-- `lichbd_unlink` under an oracle whose first unlink attempt succeeds:
one spawn, normal return. -/
theorem lichbd_unlink_first_ok (os : Os) (path : String) (t : Nat)
    (h : (os t (lich_unlink_cmd path)).code = 0) :
    lichbd_unlink os path t = (.ok (), t + 1) := by
  simp only [lichbd_unlink, call_try_first_ok os (lich_unlink_cmd path) t h]
  simp [mkShellCmd_return_code, h]

/-- `call` on a command whose spawn succeeds returns it without raising. -/
theorem call_ok (os : Os) (cmd : String) (t : Nat) (h : (os t cmd).code = 0) :
    call os cmd t = (.ok (mkShellCmd cmd (os t cmd)), t + 1) := by
  simp [call, shellCmdCall, mkShellCmd, h]

/-- An all-failing `lichbd_copy` loop of `k` remaining iterations (the copy
command never exits zero, every cleanup spawn succeeds): every iteration
burns 11 spawns (10 copy attempts inside `call_try`, one cleanup) and emits
one copy attempt followed by one cleanup event, and the loop ends by raising
with the diagnostics of the `ShellCmd` accumulated through `copyFailLast`. -/
theorem lichbd_copy_go_all_fail (os : Os) (src_path dst_path : String)
    (hcopy : ∀ u, ¬ (os u (lich_copy_cmd src_path dst_path)).code = 0)
    (hrm : ∀ u, (os u (rm_rf_cmd dst_path)).code = 0)
    (hunlink : ∀ u, (os u (lich_unlink_cmd dst_path)).code = 0) :
    ∀ (k t : Nat) (s0 : ShellCmd),
      lichbd_copy_go os src_path dst_path (some s0) t k
        = (.error (raise_exp_msg
            (copyFailLast os (lich_copy_cmd src_path dst_path) s0 k t)),
          copyFailEvs os (lich_copy_cmd src_path dst_path) (cleanupEv dst_path) k t,
          t + 11 * k)
  | 0, t, s0 => by
    simp [lichbd_copy_go, copyFailLast, copyFailEvs]
  | k + 1, t, s0 => by
    obtain ⟨tr, htr⟩ := call_try_all_fail os (lich_copy_cmd src_path dst_path) t hcopy
    have hih := lichbd_copy_go_all_fail os src_path dst_path hcopy hrm hunlink
      k (t + 11)
      (mkShellCmd (lich_copy_cmd src_path dst_path)
        (os (t + 9) (lich_copy_cmd src_path dst_path)))
    by_cases hs : pyStartsWithColon dst_path = true
    · simp [lichbd_copy_go, htr, mkShellCmd_return_code, hcopy (t + 9), hs,
        call_ok os (rm_rf_cmd dst_path) (t + 10) (hrm (t + 10)),
        (by omega : t + 10 + 1 = t + 11), hih, copyFailLast, copyFailEvs,
        cleanupEv, (by omega : t + 11 + 11 * k = t + 11 * (k + 1))]
    · simp [lichbd_copy_go, htr, mkShellCmd_return_code, hcopy (t + 9), hs,
        lichbd_unlink_first_ok os dst_path (t + 10) (hunlink (t + 10)),
        (by omega : t + 10 + 1 = t + 11), hih, copyFailLast, copyFailEvs,
        cleanupEv, (by omega : t + 11 + 11 * k = t + 11 * (k + 1))]

/-- C6 counterexample: under `osCopyDemo` all 5 copy attempts of
`lichbd_copy "src" "/dst"` fail while every cleanup succeeds, and the run
performs 5 cleanup invocations — not 4 — the last one coming after the
final failed attempt (the trace ends with a cleanup), before raising the
`ShellError` with the last attempt's diagnostics. -/
theorem lichbd_copy_four_cleanups_false :
    countCleanups (lichbd_copy osCopyDemo "src" "/dst" 0).2.1 = 5
    ∧ ¬ countCleanups (lichbd_copy osCopyDemo "src" "/dst" 0).2.1 = 4
    ∧ countCopyAttempts (lichbd_copy osCopyDemo "src" "/dst" 0).2.1 = 5
    ∧ (lichbd_copy osCopyDemo "src" "/dst" 0).2.1.getLast?
        = some .cleanup_unlink
    ∧ (lichbd_copy osCopyDemo "src" "/dst" 0).1
        = .error (raise_exp_msg (mkShellCmd (lich_copy_cmd "src" "/dst")
            (osCopyDemo 53 (lich_copy_cmd "src" "/dst")))) := by
  refine ⟨by decide, by decide, by decide, by decide, rfl⟩

/-- C6 (amended): for every source and destination and every oracle on which
the copy command always fails and the cleanup command (unlink here, the
destination not being `:`-prefixed) always succeeds, `lichbd_copy` makes
exactly 5 copy attempts, performs exactly 5 cleanup invocations — one after
every failed attempt, including the final one — and then raises a
`ShellError` carrying the last attempt's full diagnostics (the 55th spawn,
each attempt being a 10-spawn `call_try`). -/
theorem lichbd_copy_cleanup_per_failed_attempt (os : Os)
    (src_path dst_path : String)
    (hcopy : ∀ u, ¬ (os u (lich_copy_cmd src_path dst_path)).code = 0)
    (hrm : ∀ u, (os u (rm_rf_cmd dst_path)).code = 0)
    (hunlink : ∀ u, (os u (lich_unlink_cmd dst_path)).code = 0) :
    lichbd_copy os src_path dst_path 0
      = (.error (raise_exp_msg (mkShellCmd (lich_copy_cmd src_path dst_path)
          (os 53 (lich_copy_cmd src_path dst_path)))),
        [.copy_attempt ((os 9 (lich_copy_cmd src_path dst_path)).code),
          cleanupEv dst_path,
          .copy_attempt ((os 20 (lich_copy_cmd src_path dst_path)).code),
          cleanupEv dst_path,
          .copy_attempt ((os 31 (lich_copy_cmd src_path dst_path)).code),
          cleanupEv dst_path,
          .copy_attempt ((os 42 (lich_copy_cmd src_path dst_path)).code),
          cleanupEv dst_path,
          .copy_attempt ((os 53 (lich_copy_cmd src_path dst_path)).code),
          cleanupEv dst_path], 55)
    ∧ countCleanups (lichbd_copy os src_path dst_path 0).2.1 = 5
    ∧ countCopyAttempts (lichbd_copy os src_path dst_path 0).2.1 = 5
    ∧ (lichbd_copy os src_path dst_path 0).2.1.getLast? = some (cleanupEv dst_path) := by
  have hmain : lichbd_copy os src_path dst_path 0
      = (.error (raise_exp_msg (mkShellCmd (lich_copy_cmd src_path dst_path)
          (os 53 (lich_copy_cmd src_path dst_path)))),
        [.copy_attempt ((os 9 (lich_copy_cmd src_path dst_path)).code),
          cleanupEv dst_path,
          .copy_attempt ((os 20 (lich_copy_cmd src_path dst_path)).code),
          cleanupEv dst_path,
          .copy_attempt ((os 31 (lich_copy_cmd src_path dst_path)).code),
          cleanupEv dst_path,
          .copy_attempt ((os 42 (lich_copy_cmd src_path dst_path)).code),
          cleanupEv dst_path,
          .copy_attempt ((os 53 (lich_copy_cmd src_path dst_path)).code),
          cleanupEv dst_path], 55) := by
    rw [lichbd_copy, show (5 : Nat) = 4 + 1 from rfl]
    generalize hk : (4 : Nat) = k4
    obtain ⟨tr, htr⟩ := call_try_all_fail os (lich_copy_cmd src_path dst_path) 0 hcopy
    have hgo := lichbd_copy_go_all_fail os src_path dst_path hcopy hrm hunlink
      k4 11 (mkShellCmd (lich_copy_cmd src_path dst_path)
        (os 9 (lich_copy_cmd src_path dst_path)))
    by_cases hs : pyStartsWithColon dst_path = true
    · simp only [lichbd_copy_go]
      rw [htr]
      subst hk
      simp [mkShellCmd_return_code, hcopy 9, hs,
        call_ok os (rm_rf_cmd dst_path) 10 (hrm 10), hgo,
        copyFailLast, copyFailEvs, cleanupEv]
    · simp only [lichbd_copy_go]
      rw [htr]
      subst hk
      simp [mkShellCmd_return_code, hcopy 9, hs,
        lichbd_unlink_first_ok os dst_path 10 (hunlink 10), hgo,
        copyFailLast, copyFailEvs, cleanupEv]
  refine ⟨hmain, ?_, ?_, ?_⟩
  · rw [hmain]
    by_cases hs : pyStartsWithColon dst_path = true <;>
      simp [countCleanups, cleanupEv, hs]
  · rw [hmain]
    by_cases hs : pyStartsWithColon dst_path = true <;>
      simp [countCopyAttempts, cleanupEv, hs]
  · rw [hmain]
    rfl

/-- Instantiation of the C6 amended theorem at `osCopyWitness` (copy always
fails, everything else succeeds) for the non-`:` destination `/dst-vol`. -/
theorem lichbd_copy_cleanup_per_failed_attempt_witness :
    countCleanups (lichbd_copy osCopyWitness "src-vol" "/dst-vol" 0).2.1 = 5
    ∧ countCopyAttempts (lichbd_copy osCopyWitness "src-vol" "/dst-vol" 0).2.1 = 5
    ∧ (lichbd_copy osCopyWitness "src-vol" "/dst-vol" 0).2.1.getLast?
        = some (cleanupEv "/dst-vol") := by
  have hcopy : ∀ u, ¬ (osCopyWitness u
      (lich_copy_cmd "src-vol" "/dst-vol")).code = 0 := by
    intro u
    simp [osCopyWitness]
  have hrm : ∀ u, (osCopyWitness u (rm_rf_cmd "/dst-vol")).code = 0 := by
    intro u
    simp only [osCopyWitness]
    rw [if_neg (by decide)]
  have hunlink : ∀ u, (osCopyWitness u (lich_unlink_cmd "/dst-vol")).code = 0 := by
    intro u
    simp only [osCopyWitness]
    rw [if_neg (by decide)]
  exact (lichbd_copy_cleanup_per_failed_attempt osCopyWitness
    "src-vol" "/dst-vol" hcopy hrm hunlink).2

/-- C7 counterexample: under `osStatDemo` the first stat attempt exits 1,
yet `lichbd_file_size` does not raise — `call_try` retries, the second spawn
succeeds and the parsed size 123 is returned after 2 spawns, refuting both
"single attempt" and "raises on any non-zero exit code". -/
theorem lichbd_file_size_single_attempt_false :
    lichbd_file_size osStatDemo "/vol/img" 0 = (.ok 123, 2)
    ∧ ¬ (osStatDemo 0 (lich_stat_size_cmd "/vol/img")).code = 0 := by
  refine ⟨rfl, by decide⟩

/-- C7 (amended): `lichbd_file_size` runs its stat command through the
retrying executor (`call_try`, up to 10 attempts, not a single one).  When
the final attempt exits zero it returns the trimmed stdout parsed as an
integer; it raises (with the last attempt's diagnostics) only when the last
of the 10 attempts still exits non-zero. -/
theorem lichbd_file_size_retrying (os : Os) (path : String) (n : Int)
    (sout : String) :
    ((∀ u, ¬ (os u (lich_stat_size_cmd path)).code = 0) →
      lichbd_file_size os path 0
        = (.error (raise_exp_msg (mkShellCmd (lich_stat_size_cmd path)
            (os 9 (lich_stat_size_cmd path)))), 10))
    ∧ ((os 0 (lich_stat_size_cmd path)).code = 0 →
        (os 0 (lich_stat_size_cmd path)).out = sout →
        pyLong (pyStrip sout) = some n →
        lichbd_file_size os path 0 = (.ok n, 1)) := by
  constructor
  · intro hfail
    obtain ⟨tr, htr⟩ := call_try_all_fail os (lich_stat_size_cmd path) 0 hfail
    simp [lichbd_file_size, htr, mkShellCmd_return_code, hfail 9]
  · intro hok hout hparse
    simp [lichbd_file_size, call_try_first_ok os (lich_stat_size_cmd path) 0 hok,
      mkShellCmd_return_code, mkShellCmd_stdout, hok, hout, hparse]

/-- Instantiation of the C7 amended theorem: an all-failing oracle raises
after the 10 attempts with the last diagnostics, and an immediately
succeeding oracle returns the parsed size 42 after one spawn. -/
theorem lichbd_file_size_retrying_witness :
    lichbd_file_size osStatFailWitness "/vol/a" 0
      = (.error (raise_exp_msg (mkShellCmd (lich_stat_size_cmd "/vol/a")
          (osStatFailWitness 9 (lich_stat_size_cmd "/vol/a")))), 10)
    ∧ lichbd_file_size osStatOkWitness "/vol/b" 0 = (.ok 42, 1) := by
  have hfail : ∀ u, ¬ (osStatFailWitness u
      (lich_stat_size_cmd "/vol/a")).code = 0 := by
    intro u
    simp [osStatFailWitness]
  exact ⟨(lichbd_file_size_retrying osStatFailWitness "/vol/a" 42 " 42 \n").1 hfail,
    (lichbd_file_size_retrying osStatOkWitness "/vol/b" 42 " 42 \n").2
      (by decide) rfl (by decide)⟩

end GlanceStore
